import Mathlib

/-!
Verification development for the `boltwood` repository (Boltwood II cloud
sensor driver).  The definitions below are a shallow embedding of
`src/boltwood/report.py`, `src/boltwood/api.py` and
`src/boltwood/boltwood.py`:

* raw frames are `List Char`, each character standing for one byte of the
  serial stream (the protocol alphabet is ASCII);
* Python floats parsed from the decimal literals of a frame are modelled as
  exact rationals (`ℚ`), built with `mkRat`;
* Python dictionaries are association lists where assignment overwrites an
  existing key in place and appends a new key at the end, exactly like the
  insertion-ordered `dict`;
* the body of `Report._parse_raw_data` runs in a small state-plus-exception
  monad `PM`: state mutations (`self.data[...] = ...`) survive an exception,
  mirroring attribute mutation on `self`, and the `except IndexError` /
  `except ValueError` clauses catch exactly those two exceptions, so a
  `KeyError` escapes, as in the Python code.
-/

namespace Boltwood

/-- Python exceptions that the embedded code can raise. -/
inductive PyExc where
  | keyError
  | valueError
  | indexError
  | attributeError
deriving DecidableEq

/-- Values stored in a report's `data` dictionary: floats (as exact
rationals), ints, strings, booleans, and the float NaN produced by
`np.mean([])`. -/
inductive Value where
  | num (q : ℚ)
  | intv (z : ℤ)
  | str (s : String)
  | bool (b : Bool)
  | nan
deriving DecidableEq

/-- The mutable part of a `Report` object: the `data`, `errors` and
`comments` dictionaries (insertion-ordered association lists). -/
structure Report where
  data : List (String × Value)
  errors : List (String × String)
  comments : List (String × String)
deriving DecidableEq

instance {ε α : Type} [DecidableEq ε] [DecidableEq α] : DecidableEq (Except ε α) := fun a b =>
  match a, b with
  | .ok x, .ok y => if h : x = y then .isTrue (by rw [h]) else .isFalse (by simp [h])
  | .error x, .error y => if h : x = y then .isTrue (by rw [h]) else .isFalse (by simp [h])
  | .ok _, .error _ => .isFalse (by simp)
  | .error _, .ok _ => .isFalse (by simp)

/-- A fresh report: `self.data = {}`, `self.errors = {}`, `self.comments = {}`. -/
def emptyReport : Report := ⟨[], [], []⟩

/-- Python `dict` assignment `d[k] = v` on an insertion-ordered
association list: overwrite in place, or append a new key. -/
def dput (d : List (String × α)) (k : String) (v : α) : List (String × α) :=
  if d.any (fun p => p.1 = k) then d.map (fun p => if p.1 = k then (k, v) else p)
  else d ++ [(k, v)]

/-- State-plus-exception monad for `Report._parse_raw_data`: mutations of
the report survive a raised exception (they happened on `self`). -/
def PM (α : Type) : Type := Report → Report × Except PyExc α

instance : Monad PM where
  pure a := fun r => (r, .ok a)
  bind m f := fun r =>
    match m r with
    | (r2, .ok a) => f a r2
    | (r2, .error e) => (r2, .error e)

/-- Raise a Python exception. -/
def raiseE {α : Type} (e : PyExc) : PM α := fun r => (r, .error e)

/-- Lift an `Option` into `PM`, raising `e` on `none`. -/
def liftOpt {α : Type} (e : PyExc) : Option α → PM α
  | some a => pure a
  | none => raiseE e

/-- `self.data[k] = v`. -/
def setData (k : String) (v : Value) : PM Unit :=
  fun r => ({ r with data := dput r.data k v }, .ok ())

/-- `self.errors[k] = v`. -/
def setError (k v : String) : PM Unit :=
  fun r => ({ r with errors := dput r.errors k v }, .ok ())

/-- `self.comments[k] = v`. -/
def setComment (k v : String) : PM Unit :=
  fun r => ({ r with comments := dput r.comments k v }, .ok ())

/-- Python list indexing `s[i]`: raises `IndexError` when out of range. -/
def idxF {α : Type} (s : List α) (i : ℕ) : PM α := liftOpt .indexError s[i]?

/-- Python dict lookup `t[k]` for an int-keyed table: raises `KeyError`
when the key is absent. -/
def lookupZ (t : List (ℤ × String)) (k : ℤ) : PM String := liftOpt .keyError (t.lookup k)

/-- Python dict lookup `t[k]` for a string-keyed table: raises `KeyError`
when the key is absent. -/
def lookupS (t : List (String × String)) (k : String) : PM String := liftOpt .keyError (t.lookup k)

/-- Dict lookup with a literal key that is always present (e.g.
`api.TSKY_CODES['999.9']`); total, since the key is in the table. -/
def dget (t : List (String × String)) (k : String) : String := (t.lookup k).getD ""

/-- Byte values that Python `bytes.split()` / `str.split()` treat as
whitespace. -/
def isPySpace (c : Char) : Bool :=
  c.toNat = 32 || c.toNat = 9 || c.toNat = 10 || c.toNat = 13 || c.toNat = 11 || c.toNat = 12

/-- Helper for `pysplit`: accumulate the current token (reversed). -/
def pysplitAux : List Char → List Char → List (List Char)
  | [], acc => if acc.isEmpty then [] else [acc.reverse]
  | c :: rest, acc =>
    if isPySpace c then
      if acc.isEmpty then pysplitAux rest [] else acc.reverse :: pysplitAux rest []
    else pysplitAux rest (c :: acc)

/-- Python `split()` with no argument: split on runs of whitespace and
drop empty tokens. -/
def pysplit (l : List Char) : List (List Char) := pysplitAux l []

/-- Digit run to a natural number. -/
def natOfDigits (l : List Char) : ℕ := l.foldl (fun a c => a * 10 + (c.toNat - 48)) 0

/-- A non-empty run of decimal digits. -/
def allDigits (l : List Char) : Bool := !l.isEmpty && l.all Char.isDigit

/-- Python `int(s)` on a token of the protocol alphabet (optional sign,
decimal digits); `none` models `ValueError`. -/
def pyInt (l : List Char) : Option ℤ :=
  match l with
  | '-' :: rest => if allDigits rest then some (-(natOfDigits rest : ℤ)) else none
  | '+' :: rest => if allDigits rest then some ((natOfDigits rest : ℤ)) else none
  | _ => if allDigits l then some ((natOfDigits l : ℤ)) else none

/-- Unsigned part of Python `float(s)`: decimal digits with an optional
single decimal point, as an exact rational. -/
def pyFloatMag (l : List Char) : Option ℚ :=
  let ip := l.takeWhile (fun c => c ≠ '.')
  match l.dropWhile (fun c => c ≠ '.') with
  | [] => if allDigits ip then some (mkRat (natOfDigits ip) 1) else none
  | _ :: frac =>
    if ip.all Char.isDigit && frac.all Char.isDigit && !(ip.isEmpty && frac.isEmpty) then
      some (mkRat (natOfDigits ip * 10 ^ frac.length + natOfDigits frac) (10 ^ frac.length))
    else none

/-- Python `float(s)` on a decimal literal of the protocol alphabet;
`none` models `ValueError`. -/
def pyFloat (l : List Char) : Option ℚ :=
  match l with
  | '-' :: rest => (pyFloatMag rest).map Rat.neg
  | '+' :: rest => pyFloatMag rest
  | _ => pyFloatMag l

/-- `float(s[i])` inside the parser: `ValueError` on a malformed literal. -/
def toFloatE (l : List Char) : PM ℚ := liftOpt .valueError (pyFloat l)

/-- `int(s[i])` inside the parser: `ValueError` on a malformed literal. -/
def toIntE (l : List Char) : PM ℤ := liftOpt .valueError (pyInt l)

/-! Code tables from `src/boltwood/api.py`. -/

def HT_CODES : List (ℤ × String) :=
  [(0, "OK"), (1, "humidity write failure"), (2, "humidty measurement unfinished"),
   (3, "temperature write failure"), (4, "temperature measurement unfinished"),
   (5, "humidity data line not high"), (6, "temperature data line not high")]

def CLOUD_CODES : List (ℤ × String) :=
  [(0, "unknown"), (1, "clear"), (2, "cloudy"), (3, "very cloudy")]

def WIND_CODES : List (ℤ × String) :=
  [(0, "unknown"), (1, "OK"), (2, "windy"), (3, "very windy")]

def RAIN_CODES : List (ℤ × String) :=
  [(0, "unknown"), (1, "not raining"), (2, "recently raining"), (3, "raining")]

def SKY_CODES : List (ℤ × String) :=
  [(0, "unknown"), (1, "clear"), (2, "cloudy"), (3, "very cloudy"), (4, "wet")]

def ROOF_CODES : List (ℤ × String) :=
  [(0, "OK"), (1, "close")]

def TSKY_CODES : List (String × String) :=
  [("999.9", "saturated hot"), ("-999.9", "saturated cold"), ("-998.9", "wet sensor")]

def ANEMOMETER_CODES : List (String × String) :=
  [("-1.", "heating up"), ("-2.", "wet"), ("-3.", "bad A/D"), ("-4.", "probe not heating")]

def WETNESS_CODES : List (String × String) :=
  [("N", "dry"), ("W", "wet"), ("w", "recently wet")]

def OTHER_RAIN_CODES : List (String × String) :=
  [("N", "none"), ("R", "rain"), ("r", "recent rain")]

def TCALIB_CODES : List (String × String) :=
  [("999.9", "saturated hot"), ("-99.9", "saturated cold")]

def HEATER_CODES : List (ℤ × String) :=
  [(1, "too hot"), (0, "OK"), (2, "too cold"), (3, "too cold"), (4, "too cold"),
   (5, "too cold"), (6, "saturated case temperature"), (7, "normal control")]

def DAYLIGHT_CODES : List (ℤ × String) :=
  [(0, "unknown"), (1, "night"), (2, "twilight"), (3, "daylight")]

/-- Result of the sky-temperature classification block of
`Report._parse_raw_data` (`report.py` lines 115-135): the `errors` entry,
the `comments` entry, and the final `ok` / `w` flags after the three
sequential `if` statements. -/
structure SkyRes where
  err : Option String
  com : Option String
  ok : Bool
  w : Bool
deriving DecidableEq

/-- The three sequential sky-temperature threshold checks, exactly as in the
source: `> 999` sets the saturated-hot error; `< -998` sets the wet-sensor
comment and `w`; `< -999` then overwrites the comment with the saturated-cold
label and clears `w` again; each check clears `ok`. -/
def skyEval (dT_sky : ℚ) : SkyRes :=
  let r : SkyRes := { err := none, com := none, ok := true, w := false }
  let r := if dT_sky > 999 then { r with err := some (dget TSKY_CODES "999.9"), ok := false } else r
  let r := if dT_sky < -998 then { r with com := some (dget TSKY_CODES "-998.9"), w := true, ok := false } else r
  let r := if dT_sky < -999 then { r with com := some (dget TSKY_CODES "-999.9"), w := false, ok := false } else r
  r

/-- The anemometer temperature-differential `if`/`elif` chain of
`Report._parse_raw_data` (`report.py` lines 176-183): the value of
`self.errors['dT_anemom']` it assigns, `none` when no branch fires.
The thresholds are the Python floats `-0.5`, `-1.5`, `-2.5`, `-3.5`. -/
def anemomClass (dT : ℚ) : Option String :=
  if dT < mkRat (-1) 2 then some (dget ANEMOMETER_CODES "-1.")
  else if dT < mkRat (-3) 2 then some (dget ANEMOMETER_CODES "-2.")
  else if dT < mkRat (-5) 2 then some (dget ANEMOMETER_CODES "-3.")
  else if dT < mkRat (-7) 2 then some (dget ANEMOMETER_CODES "-4.")
  else none

/-- The `try:` body of `Report._parse_raw_data` (`report.py` lines 95-193),
statement by statement, over the whitespace-split fields `s`. -/
def parseBody (s : List (List Char)) : PM Unit := do
  let mut wet := false
  let mut raining := false
  -- HUMIDITY-TEMPERATURE SENSORS
  setData "T_ambient" (.num (← toFloatE (← idxF s 7)))
  setData "humidity" (.num (← toFloatE (← idxF s 11)))
  let status ← lookupZ HT_CODES (← toIntE (← idxF s 0))
  if status ≠ "OK" then
    setError "hT status" status
  setData "hT status" (.str status)
  -- RAIN SENSOR
  let rain ← lookupZ RAIN_CODES (← toIntE (← idxF s 3))
  if rain = "raining" then
    raining := true
    wet := true
  setData "rain status" (.str rain)
  setData "rain code" (.str (← lookupS OTHER_RAIN_CODES (String.mk (← idxF s 10))))
  -- SKY TEMPERATURE SENSOR
  let dT_sky ← toFloatE (← idxF s 6)
  let sky := skyEval dT_sky
  match sky.err with
  | some e => setError "dT_sky" e
  | none => pure ()
  match sky.com with
  | some c => setComment "dT_sky" c
  | none => pure ()
  if sky.ok then
    setData "dT_sky" (.num dT_sky)
  if sky.w then
    wet := true
  setData "cloud status" (.str (← lookupZ CLOUD_CODES (← toIntE (← idxF s 1))))
  setData "sky status" (.str (← lookupZ SKY_CODES (← toIntE (← idxF s 4))))
  -- WIND SENSOR
  setData "wind status" (.str (← lookupZ WIND_CODES (← toIntE (← idxF s 2))))
  setData "windspeed" (.num (← toFloatE (← idxF s 8)))
  -- WETNESS
  let wstatus ← lookupS WETNESS_CODES (String.mk (← idxF s 9))
  setData "wet status" (.str wstatus)
  if wstatus = "wet" then
    wet := true
  -- MISC
  setData "roof status" (.str (← lookupZ ROOF_CODES (← toIntE (← idxF s 5))))
  setData "T_dewpoint" (.num (← toFloatE (← idxF s 12)))
  setData "T_case" (.num (← toFloatE (← idxF s 13)))
  let f14 ← idxF s 14
  let hstatus ← toIntE f14
  if hstatus < 0 ∨ hstatus > (HEATER_CODES.length : ℤ) then
    setError "unknown code" ("heater code status = " ++ String.mk f14 ++ " = " ++ toString hstatus ++ "?")
  else
    setData "heater status" (.str (← lookupZ HEATER_CODES hstatus))
    if ¬(hstatus = 0 ∨ hstatus = 7) then
      setError "heater" (← lookupZ HEATER_CODES hstatus)
  let tcalib ← toFloatE (← idxF s 15)
  setData "T_calib" (.num tcalib)
  if tcalib > 999 then
    setComment "T_calib" (dget TCALIB_CODES "999.9")
  else if tcalib < -99 then
    setComment "T_calib" (dget TCALIB_CODES "-99.9")
  setData "heater" (.intv (← toIntE (← idxF s 16)))
  setData "sensor voltage" (.num (← toFloatE (← idxF s 17)))
  let dT ← toFloatE (← idxF s 18)
  setData "dT_anemom" (.num dT)
  match anemomClass dT with
  | some m => setError "dT_anemom" m
  | none => pure ()
  setData "wet drop" (.intv (← toIntE (← idxF s 19)))
  setData "wet avg" (.intv (← toIntE (← idxF s 20)))
  setData "wet dry" (.intv (← toIntE (← idxF s 21)))
  setData "illumination" (.str (← lookupZ DAYLIGHT_CODES (← toIntE (← idxF s 33))))
  -- compound results
  setData "wet" (.bool wet)
  setData "raining" (.bool raining)

/-- `Report._parse_raw_data` from the decoded line onward: split on
whitespace, reject a field count different from 35 with
`errors['packet']`, otherwise run the `try:` body; `IndexError` and
`ValueError` are caught and recorded as `errors['packet']`, every other
exception (a `KeyError` from a code-table lookup) escapes and is returned
as the second component. -/
def parseLine (line : List Char) : Report × Option PyExc :=
  let s := pysplit line
  if s.length ≠ 35 then
    ({ emptyReport with
        errors := dput [] "packet" ("Boltwood II report too small! (" ++ toString s.length ++ " != 35)") },
     none)
  else
    match parseBody s emptyReport with
    | (r, .ok _) => (r, none)
    | (r, .error .indexError) =>
      ({ r with errors := dput r.errors "packet" "cannot completely parse packet" }, none)
    | (r, .error .valueError) =>
      ({ r with errors := dput r.errors "packet" "cannot completely parse packet" }, none)
    | (r, .error e) => (r, some e)

/-- The byte `\x02` (frame start marker). -/
def stx : Char := Char.ofNat 2

/-- The byte `\n` (frame terminator). -/
def lf : Char := Char.ofNat 10

/-- The byte `\x00` (stray null prefix the device sometimes emits). -/
def nul : Char := Char.ofNat 0

/-- The poll-request byte `\x01` (`REQUEST_POLL`). -/
def REQUEST_POLL : List Char := [Char.ofNat 1]

/-- `bytes.decode('utf-8')` restricted to the ASCII range of the device
protocol: succeeds on ASCII bytes, `none` models `UnicodeDecodeError`. -/
def decodeAscii (l : List Char) : Option (List Char) :=
  if l.all (fun c => c.toNat < 128) then some l else none

/-- `Report(raw_data)`: strip the 3-byte `\x02MD` response marker and the
final byte, text-decode, and parse; a decode failure is recorded as
`comments['decoding']`, and an exception escaping `_parse_raw_data`
propagates out of the constructor. -/
def reportOf (raw : List Char) : Except PyExc Report :=
  match decodeAscii ((raw.drop 3).dropLast) with
  | none => .ok { emptyReport with comments := [("decoding", "unicode decode error")] }
  | some line =>
    match parseLine line with
    | (r, none) => .ok r
    | (_, some e) => .error e

/-- The values of the `ResponsePrefix` enumeration in
`src/boltwood/boltwood.py` (`\x02A`, `\x02MC`, `\x02MD`, `\x02MK`,
`\x02N`, `\x02P`, `\x02Q`, `\x02R`, `\x02MT`, `\x02MW`). -/
def responseKinds : List String :=
  [String.mk [stx, 'A'], String.mk [stx, 'M', 'C'], String.mk [stx, 'M', 'D'],
   String.mk [stx, 'M', 'K'], String.mk [stx, 'N'], String.mk [stx, 'P'],
   String.mk [stx, 'Q'], String.mk [stx, 'R'], String.mk [stx, 'M', 'T'],
   String.mk [stx, 'M', 'W']]

/-- The `POLLING` response marker `\x02P`. -/
def pfxPolling : String := String.mk [stx, 'P']

/-- The `REPORT` response marker `\x02MD`. -/
def pfxReport : String := String.mk [stx, 'M', 'D']

/-- What one call of `BoltwoodII._analyse_message` does: the byte strings
written to the serial connection and the reports handed to the callback. -/
structure AnalyseRes where
  writes : List (List Char)
  reports : List Report
deriving DecidableEq

/-- `BoltwoodII._analyse_message` (`boltwood.py` lines 530-569): empty data
or a bare terminator resends the poll request; the first whitespace-split
token is matched against the response markers (an unknown marker is logged
and dropped); a `POLLING` frame answers with a new poll request only; a
`REPORT` frame is decoded and delivered to the callback; every other known
marker is ignored.  `raw_data.split()[0]` raises `IndexError` on
whitespace-only data, and an exception from `Report(raw_data)` propagates. -/
def analyseMessage (raw : List Char) : Except PyExc AnalyseRes :=
  if raw = [] ∨ raw = [lf] then .ok ⟨[REQUEST_POLL], []⟩
  else
    match (pysplit raw).head? with
    | none => .error .indexError
    | some tmp =>
      if responseKinds.contains (String.mk tmp) then
        if String.mk tmp = pfxPolling then .ok ⟨[REQUEST_POLL], []⟩
        else if String.mk tmp = pfxReport then
          match reportOf raw with
          | .ok r => .ok ⟨[], [r]⟩
          | .error e => .error e
        else .ok ⟨[], []⟩
      else .ok ⟨[], []⟩

/-- The stray-null guard of `_poll_thread`: `if raw_data.startswith(b'\x00'):
raw_data = raw_data[1:]`. -/
def stripNull (l : List Char) : List Char :=
  if l.head? = some nul then l.tail else l

/-- One read of `_poll_thread`: discard a stray leading null byte, then
analyse the frame. -/
def processFrame (raw : List Char) : Except PyExc AnalyseRes :=
  analyseMessage (stripNull raw)

/-- `self._thread_sleep` (the 1 s backoff floor). -/
def threadSleep : ℕ := 1

/-- `self._max_thread_sleep` (the 900 s backoff ceiling). -/
def maxThreadSleep : ℕ := 900

/-- The `except serial.SerialException` branch of `_poll_thread`
(`boltwood.py` lines 479-490): increment the failure counter; on every
10th consecutive failure double the sleep time if it is still below the
ceiling, else reset it to the floor. -/
def backoffFail (serialErrors sleepTime : ℕ) : ℕ × ℕ :=
  if (serialErrors + 1) % 10 = 0 then
    if sleepTime < maxThreadSleep then (serialErrors + 1, sleepTime * 2)
    else (serialErrors + 1, threadSleep)
  else (serialErrors + 1, sleepTime)

/-- `backoffFail` as a step on the `(serial_errors, sleep_time)` pair. -/
def backoffStep (p : ℕ × ℕ) : ℕ × ℕ := backoffFail p.1 p.2

/-- The environment of one iteration of the polling loop: whether
`_connect_serial` would succeed, and what `readline()` returns. -/
structure IterEnv where
  connectOk : Bool
  readData : List Char
deriving DecidableEq

/-- The state owned by the polling thread: the connection handle
(`None` or open), the failure counter, the sleep time, and the observable
outputs (serial writes and callback invocations). -/
structure PollState where
  conn : Option Unit
  serialErrors : ℕ
  sleepTime : ℕ
  writes : List (List Char)
  reports : List Report
deriving DecidableEq

/-- Thread state at the top of `_poll_thread`. -/
def initPoll : PollState := ⟨none, 0, threadSleep, [], []⟩

/-- One iteration of the `while not self._closing.is_set()` loop of
`_poll_thread` (`boltwood.py` lines 467-505): (re)connect when there is no
connection — a success resets the counters and sends a poll request, a
`SerialException` runs the backoff update — then, if connected, read one
line and process it (an exception escaping `_analyse_message` aborts the
thread). -/
def pollIter (st : PollState) (env : IterEnv) : Except PyExc PollState :=
  let st2 :=
    if st.conn = none then
      if env.connectOk then
        { st with conn := some (), serialErrors := 0, sleepTime := threadSleep,
                  writes := st.writes ++ [REQUEST_POLL] }
      else
        let p := backoffFail st.serialErrors st.sleepTime
        { st with serialErrors := p.1, sleepTime := p.2 }
    else st
  if st2.conn = none then .ok st2
  else
    match processFrame env.readData with
    | .ok res => .ok { st2 with writes := st2.writes ++ res.writes,
                                reports := st2.reports ++ res.reports }
    | .error e => .error e

/-- `_poll_thread` run against a finite environment trace: the shutdown
signal becomes set after the last entry, the loop exits, and the epilogue
`self._conn.close()` raises `AttributeError` when `self._conn` is still
`None` (no connection was ever established). -/
def pollThread (envs : List IterEnv) : Except PyExc PollState :=
  match envs.foldlM pollIter initPoll with
  | .error e => .error e
  | .ok st =>
    match st.conn with
    | none => .error .attributeError
    | some _ => .ok st

/-! The aggregator `Report.average` (`report.py` lines 224-256). -/

/-- The values collected for column `c`: `data[c].append(r.data[c])` for
each report, skipping reports without the key (`except KeyError: pass`). -/
def colVals (reports : List Report) (c : String) : List Value :=
  reports.filterMap (fun r => r.data.lookup c)

/-- The rationals among a list of collected values (the four numeric
columns of every decoder-produced report hold floats). -/
def valsAsQ (l : List Value) : List ℚ :=
  l.filterMap (fun v => match v with | .num q => some q | _ => none)

/-- `np.mean` over a list of floats: the float NaN on an empty list. -/
def npMean (l : List ℚ) : Value :=
  if l.isEmpty then Value.nan else Value.num (l.sum / (l.length : ℚ))

/-- Python truthiness, for `any(data['raining'])`. -/
def truthy (v : Value) : Bool :=
  match v with
  | .bool b => b
  | .num q => q ≠ 0
  | .intv z => z ≠ 0
  | .str s => s ≠ ""
  | .nan => true

/-- `Report.average`: collect the seven columns from the source reports,
write the `np.mean` of the four numeric columns and
`any(data['raining'])` into a fresh report, and return it.  The collected
`cloud status` and `wet` columns are never written to the result. -/
def average (reports : List Report) : Report :=
  { data :=
      [("T_ambient", npMean (valsAsQ (colVals reports "T_ambient"))),
       ("humidity", npMean (valsAsQ (colVals reports "humidity"))),
       ("windspeed", npMean (valsAsQ (colVals reports "windspeed"))),
       ("dT_sky", npMean (valsAsQ (colVals reports "dT_sky"))),
       ("raining", .bool ((colVals reports "raining").any truthy))],
    errors := [], comments := [] }

/-! Concrete frames used in the theorems.  `exampleFields` is the example
packet from the docstring of `Report._parse_raw_data`. -/

/-- The 35 fields of the docstring example packet. -/
def exampleFields : String :=
  "0 3 1 1 3 1 -3.6 27.0 0.0 N N 31 8.6 41.6 0 -99.9 0 24.0 24.7 2 -81 -63 000 135 0130 0348 0942 1023 0148 0152 0.0 053 13996 3 06531097"

/-- The example packet with HT status code 9 in field 0 (not a key of
`HT_CODES`). -/
def htNineFields : String :=
  "9 3 1 1 3 1 -3.6 27.0 0.0 N N 31 8.6 41.6 0 -99.9 0 24.0 24.7 2 -81 -63 000 135 0130 0348 0942 1023 0148 0152 0.0 053 13996 3 06531097"

/-- The example packet with heater status code 8 in field 14 (inside the
`0 ≤ status ≤ len(HEATER_CODES)` guard but not a key of `HEATER_CODES`). -/
def heaterEightFields : String :=
  "0 3 1 1 3 1 -3.6 27.0 0.0 N N 31 8.6 41.6 8 -99.9 0 24.0 24.7 2 -81 -63 000 135 0130 0348 0942 1023 0148 0152 0.0 053 13996 3 06531097"

/-- The example packet with anemometer differential -4.0 in field 18
(below the deepest threshold -3.5). -/
def anemomFields : String :=
  "0 3 1 1 3 1 -3.6 27.0 0.0 N N 31 8.6 41.6 0 -99.9 0 24.0 -4.0 2 -81 -63 000 135 0130 0348 0942 1023 0148 0152 0.0 053 13996 3 06531097"

/-- A truncated packet with only 10 fields. -/
def tenFields : String := "0 3 1 1 3 1 -3.6 27.0 0.0 N"

/-- The example packet with one extra trailing field (36 fields). -/
def thirtySixFields : String := exampleFields ++ " 7"

/-- A complete sensors frame: `\x02MD ` + fields + `\n`. -/
def mkFrame (fields : String) : List Char :=
  [stx, 'M', 'D', ' '] ++ fields.data ++ [lf]

/-- The decoded line seen by `_parse_raw_data` for a sensors frame:
`raw_data[3:-1]`, i.e. a space followed by the fields. -/
def lineOf (fields : String) : List Char := ' ' :: fields.data

/-- A bare device-initiated poll frame `\x02P\n`. -/
def pollFrame : List Char := [stx, 'P', lf]

/-- The example packet with sky differential 1000.5 in field 6 (above the
saturated-hot threshold 999). -/
def skyHotFields : String :=
  "0 3 1 1 3 1 1000.5 27.0 0.0 N N 31 8.6 41.6 0 -99.9 0 24.0 24.7 2 -81 -63 000 135 0130 0348 0942 1023 0148 0152 0.0 053 13996 3 06531097"

/-- The example packet with sky differential -998.5 in field 6 (in the
wet-sensor band, between -999 and -998). -/
def skyWetFields : String :=
  "0 3 1 1 3 1 -998.5 27.0 0.0 N N 31 8.6 41.6 0 -99.9 0 24.0 24.7 2 -81 -63 000 135 0130 0348 0942 1023 0148 0152 0.0 053 13996 3 06531097"

/-- The example packet with sky differential -1000.0 in field 6 (below the
saturated-cold threshold -999). -/
def skyColdFields : String :=
  "0 3 1 1 3 1 -1000.0 27.0 0.0 N N 31 8.6 41.6 0 -99.9 0 24.0 24.7 2 -81 -63 000 135 0130 0348 0942 1023 0148 0152 0.0 053 13996 3 06531097"

/-- Source report for the averaging example: ambient 10.0, windspeed 4.0,
not raining, not wet. -/
def exRep1 : Report :=
  ⟨[("T_ambient", .num 10), ("windspeed", .num 4), ("raining", .bool false), ("wet", .bool false)],
   [], []⟩

/-- Source report for the averaging example: ambient 20.0 (no windspeed),
not raining, not wet. -/
def exRep2 : Report :=
  ⟨[("T_ambient", .num 20), ("raining", .bool false), ("wet", .bool false)], [], []⟩

/-- Source report for the averaging example: ambient 30.0, windspeed 6.0,
raining and wet. -/
def exRep3 : Report :=
  ⟨[("T_ambient", .num 30), ("windspeed", .num 6), ("raining", .bool true), ("wet", .bool true)],
   [], []⟩

end Boltwood

namespace Boltwood

set_option maxRecDepth 40000

/-- Claim C1 (code bug witness evaluation): a well-formed 35-field sensors
frame whose humidity-temperature status code is 9 — not a key of
`HT_CODES` — makes `Report._parse_raw_data` raise a `KeyError` that is
caught neither by its `except IndexError` / `except ValueError` clauses
nor anywhere in `_poll_thread`, so the polling thread dies with the
uncaught exception instead of recording the failure on the report. -/
theorem ht_code_nine_kills_poll_thread :
    pollThread [⟨true, mkFrame htNineFields⟩] = .error .keyError := by decide

/-- Claim C7 (code bug witness evaluation): heater status code 8 passes the
`status < 0 or status > len(HEATER_CODES)` guard (`len` is 8), but 8 is not
a key of `HEATER_CODES`, so `HEATER_CODES[8]` raises an uncaught
`KeyError`: no unknown-code error is recorded and no heater status is
populated. -/
theorem heater_code_eight_raises_key_error :
    (parseLine (lineOf heaterEightFields)).2 = some .keyError
    ∧ (parseLine (lineOf heaterEightFields)).1.errors.lookup "unknown code" = none
    ∧ (parseLine (lineOf heaterEightFields)).1.data.lookup "heater status" = none :=
  ⟨by decide, by decide, by decide⟩

/-- Claim C10 (code bug witness evaluation): when every connection attempt
fails and the shutdown signal is then set, the loop exits with
`self._conn` still `None`, and the epilogue `self._conn.close()` raises
`AttributeError` instead of closing a connection. -/
theorem shutdown_without_connection_raises :
    pollThread [⟨false, []⟩, ⟨false, []⟩, ⟨false, []⟩] = .error .attributeError := by decide

/-- Claim C2 counterexample: a sensors frame with anemometer differential
-4.0 (below the deepest threshold -3.5) records the advisory
`'heating up'` — the message of the shallowest band — not
`'probe not heating'` as the claim states. -/
theorem anemom_deep_band_gets_shallow_message :
    (parseLine (lineOf anemomFields)).1.data.lookup "dT_anemom" = some (.num (-4))
    ∧ (parseLine (lineOf anemomFields)).1.errors.lookup "dT_anemom" = some "heating up"
    ∧ ("heating up" : String) ≠ "probe not heating" :=
  ⟨by decide, by decide, by decide⟩

/-- Claim C2 (amended): the `if`/`elif` chain tests `dT < -0.5` first, so
the shallowest matching band always wins: the advisory recorded for
`dT_anemom` is `'heating up'` for every dT below -0.5 and nothing
otherwise; the three deeper branches are unreachable. -/
theorem anemom_shallowest_band_wins (dT : ℚ) :
    anemomClass dT = if dT < mkRat (-1) 2 then some "heating up" else none := by
  unfold anemomClass
  split_ifs with h1 h2 h3 h4
  · rfl
  · exact absurd (lt_trans h2 (by decide)) h1
  · exact absurd (lt_trans h3 (by decide)) h1
  · exact absurd (lt_trans h4 (by decide)) h1
  · rfl

/-- Claim C3 counterexample: after 100 consecutive connection failures the
sleep time has been doubled ten times, from 1 s to 1024 s, which exceeds
the 900 s ceiling — the delay is not capped at the ceiling. -/
theorem backoff_exceeds_ceiling :
    backoffStep^[100] (0, threadSleep) = (100, 1024) ∧ maxThreadSleep < 1024 :=
  ⟨by decide, by decide⟩

/-- Claim C4 counterexample: on the device-initiated poll frame `\x02P\n`
the controller performs exactly one serial write, the single poll-request
byte `\x01` — no acknowledge precedes it. -/
theorem poll_reply_has_no_ack :
    analyseMessage pollFrame = .ok ⟨[REQUEST_POLL], []⟩
    ∧ ([REQUEST_POLL] : List (List Char)).length = 1
    ∧ REQUEST_POLL = [Char.ofNat 1] :=
  ⟨by decide, rfl, rfl⟩

/-- Claim C4 (amended): whenever a received frame classifies as `POLLING`
(first whitespace-split token `\x02P`), `_analyse_message` answers with a
new poll request only — the single byte `\x01` — and delivers no report;
no acknowledge frame is written. -/
theorem poll_frame_answered_with_poll_request_only (raw : List Char)
    (h1 : raw ≠ []) (h2 : raw ≠ [lf]) (h3 : (pysplit raw).head? = some [stx, 'P']) :
    analyseMessage raw = .ok ⟨[REQUEST_POLL], []⟩ := by
  unfold analyseMessage
  rw [if_neg (not_or.mpr ⟨h1, h2⟩), h3]
  rfl

/-- Witness for `poll_frame_answered_with_poll_request_only` at the
concrete frame `\x02P\n`. -/
theorem poll_frame_answered_witness :
    pollFrame ≠ [] ∧ pollFrame ≠ [lf] ∧ (pysplit pollFrame).head? = some [stx, 'P']
    ∧ analyseMessage pollFrame = .ok ⟨[REQUEST_POLL], []⟩ :=
  ⟨by decide, by decide, by decide,
   poll_frame_answered_with_poll_request_only pollFrame (by decide) (by decide) (by decide)⟩

/-- Claim C5 counterexample: the field-count check is `len(s) != 35`, not
`len(s) < 35`: a sensors packet with 36 whitespace-separated fields is
also rejected with `errors['packet']` and an empty `data` mapping, though
its field count is not below 35. -/
theorem thirty_six_fields_rejected :
    (pysplit (lineOf thirtySixFields)).length = 36
    ∧ (parseLine (lineOf thirtySixFields)).1.errors.lookup "packet"
        = some "Boltwood II report too small! (36 != 35)"
    ∧ (parseLine (lineOf thirtySixFields)).1.data = [] :=
  ⟨by decide, by decide, by decide⟩

/-- Claim C5 (amended): the packet-level field-count error, with no data
fields populated, is recorded exactly when the whitespace-split field
count differs from 35 (in either direction); a 10-field packet yields
`errors['packet']` and empty data, and a packet with exactly 35 fields
proceeds to field population. -/
theorem field_count_check_is_exact :
    (∀ line : List Char, (pysplit line).length ≠ 35 →
      (parseLine line).1.data = []
      ∧ (parseLine line).1.errors.lookup "packet"
          = some ("Boltwood II report too small! (" ++ toString (pysplit line).length ++ " != 35)"))
    ∧ (parseLine (lineOf tenFields)).1.data = []
    ∧ (parseLine (lineOf tenFields)).1.errors.lookup "packet"
        = some "Boltwood II report too small! (10 != 35)"
    ∧ (parseLine (lineOf exampleFields)).1.data.lookup "T_ambient" = some (.num 27)
    ∧ (parseLine (lineOf exampleFields)).2 = none := by
  refine ⟨?_, by decide, by decide, by decide, by decide⟩
  intro line h
  simp only [parseLine]
  rw [if_pos h]
  exact ⟨rfl, rfl⟩

/-- Witness for `field_count_check_is_exact` at the concrete 10-field
packet. -/
theorem field_count_check_witness :
    (pysplit (lineOf tenFields)).length ≠ 35 ∧ (parseLine (lineOf tenFields)).1.data = [] :=
  ⟨by decide, (field_count_check_is_exact.1 (lineOf tenFields) (by decide)).1⟩

/-- Claim C3 (amended): under consecutive connection failures the sleep
time follows the closed form `2 ^ (n / 10 % 11)`: it starts at the 1 s
floor, is unchanged except on every 10th failure, doubles there while
still below the 900 s ceiling — overshooting the ceiling to 1024 s on the
100th failure — and resets to the floor on the next 10th failure after
reaching 1024 s; a successful connection resets the failure counter and
the sleep time to 0 and the 1 s floor. -/
theorem backoff_sawtooth :
    (∀ n : ℕ, backoffStep^[n] (0, threadSleep) = (n, 2 ^ (n / 10 % 11)))
    ∧ (∀ (e t : ℕ) (w : List (List Char)) (r : List Report),
        pollIter ⟨none, e, t, w, r⟩ ⟨true, [lf]⟩
          = .ok ⟨some (), 0, threadSleep, (w ++ [REQUEST_POLL]) ++ [REQUEST_POLL], r ++ []⟩) := by
  constructor
  · intro n
    induction n with
    | zero => rfl
    | succ n ih =>
      rw [Function.iterate_succ_apply', ih]
      show backoffFail n (2 ^ (n / 10 % 11)) = (n + 1, 2 ^ ((n + 1) / 10 % 11))
      unfold backoffFail
      by_cases h : (n + 1) % 10 = 0
      · have hdiv : (n + 1) / 10 = n / 10 + 1 := by omega
        rw [if_pos h, hdiv]
        by_cases hk10 : n / 10 % 11 = 10
        · have h2 : (n / 10 + 1) % 11 = 0 := by omega
          rw [h2, hk10]
          norm_num [threadSleep, maxThreadSleep]
        · have hk : n / 10 % 11 < 11 := Nat.mod_lt _ (by norm_num)
          have h2 : (n / 10 + 1) % 11 = n / 10 % 11 + 1 := by omega
          rw [h2]
          generalize n / 10 % 11 = k at hk hk10 ⊢
          interval_cases k <;>
            first
              | exact absurd rfl hk10
              | norm_num [threadSleep, maxThreadSleep]
      · have hdiv : (n + 1) / 10 = n / 10 := by omega
        rw [if_neg h, hdiv]
  · intro e t w r
    rfl

/-- Witness for `backoff_sawtooth`: after 20 consecutive failures the sleep
time is 4 s, and a successful connection from the fresh state resets the
counters. -/
theorem backoff_sawtooth_witness :
    backoffStep^[20] (0, threadSleep) = (20, 4)
    ∧ pollIter initPoll ⟨true, [lf]⟩
        = .ok ⟨some (), 0, threadSleep, ([] ++ [REQUEST_POLL]) ++ [REQUEST_POLL], [] ++ []⟩ := by
  refine ⟨?_, backoff_sawtooth.2 0 threadSleep [] []⟩
  have hexp : (20 : ℕ) / 10 % 11 = 2 := by norm_num
  have h := backoff_sawtooth.1 20
  rw [hexp] at h
  exact h

/-- Claim C6: the three sky-temperature bands behave as stated: above 999
the saturated-hot error is recorded and the value excluded; between -999
and -998 the wet-sensor comment is recorded, the wet contribution set, and
the value excluded; below -999 the comment is overridden with the
saturated-cold label and the wet contribution unset again; `dT_sky` lands
in `data` exactly when -998 ≤ dT_sky ≤ 999 — verified on `skyEval` for
every rational and through the full parser on concrete frames in each
band. -/
theorem sky_band_classification :
    (∀ dT : ℚ,
      (dT > 999 → skyEval dT = ⟨some "saturated hot", none, false, false⟩)
      ∧ (dT < -998 → ¬ dT < -999 → skyEval dT = ⟨none, some "wet sensor", false, true⟩)
      ∧ (dT < -999 → skyEval dT = ⟨none, some "saturated cold", false, false⟩)
      ∧ ((skyEval dT).ok = true ↔ -998 ≤ dT ∧ dT ≤ 999))
    ∧ (parseLine (lineOf skyHotFields)).1.errors.lookup "dT_sky" = some "saturated hot"
    ∧ (parseLine (lineOf skyHotFields)).1.data.lookup "dT_sky" = none
    ∧ (parseLine (lineOf skyWetFields)).1.comments.lookup "dT_sky" = some "wet sensor"
    ∧ (parseLine (lineOf skyWetFields)).1.data.lookup "dT_sky" = none
    ∧ (parseLine (lineOf skyWetFields)).1.data.lookup "wet" = some (.bool true)
    ∧ (parseLine (lineOf skyColdFields)).1.comments.lookup "dT_sky" = some "saturated cold"
    ∧ (parseLine (lineOf skyColdFields)).1.data.lookup "dT_sky" = none
    ∧ (parseLine (lineOf skyColdFields)).1.data.lookup "wet" = some (.bool false)
    ∧ (parseLine (lineOf exampleFields)).1.data.lookup "dT_sky" = some (.num (mkRat (-18) 5)) := by
  refine ⟨fun dT => ⟨?_, ?_, ?_, ?_⟩, by decide, by decide, by decide, by decide, by decide,
    by decide, by decide, by decide, by decide⟩
  · intro h
    have h2 : ¬ dT < -998 := by linarith
    have h3 : ¬ dT < -999 := by linarith
    simp only [skyEval]
    rw [if_pos h, if_neg h2, if_neg h3]
    rfl
  · intro h2 h3
    have h1 : ¬ dT > 999 := by linarith
    simp only [skyEval]
    rw [if_neg h1, if_pos h2, if_neg h3]
    rfl
  · intro h3
    have h2 : dT < -998 := by linarith
    have h1 : ¬ dT > 999 := by linarith
    simp only [skyEval]
    rw [if_neg h1, if_pos h2, if_pos h3]
    rfl
  · by_cases h1 : dT > 999
    · have h2 : ¬ dT < -998 := by linarith
      have h3 : ¬ dT < -999 := by linarith
      simp only [skyEval]
      rw [if_pos h1, if_neg h2, if_neg h3]
      constructor
      · intro hok
        simp at hok
      · rintro ⟨-, hb⟩
        linarith
    · by_cases h3 : dT < -999
      · have h2 : dT < -998 := by linarith
        simp only [skyEval]
        rw [if_neg h1, if_pos h2, if_pos h3]
        constructor
        · intro hok
          simp at hok
        · rintro ⟨ha, -⟩
          linarith
      · by_cases h2 : dT < -998
        · simp only [skyEval]
          rw [if_neg h1, if_pos h2, if_neg h3]
          constructor
          · intro hok
            simp at hok
          · rintro ⟨ha, -⟩
            linarith
        · simp only [skyEval]
          rw [if_neg h1, if_neg h2, if_neg h3]
          exact ⟨fun _ => ⟨by linarith, by linarith⟩, fun _ => rfl⟩

/-- Witness for `sky_band_classification` at one concrete rational in each
band. -/
theorem sky_band_classification_witness :
    skyEval 1000 = ⟨some "saturated hot", none, false, false⟩
    ∧ skyEval (mkRat (-1997) 2) = ⟨none, some "wet sensor", false, true⟩
    ∧ skyEval (-1000) = ⟨none, some "saturated cold", false, false⟩
    ∧ ((skyEval 0).ok = true ↔ -998 ≤ (0 : ℚ) ∧ (0 : ℚ) ≤ 999) :=
  ⟨(sky_band_classification.1 1000).1 (by decide),
   (sky_band_classification.1 (mkRat (-1997) 2)).2.1 (by decide) (by decide),
   (sky_band_classification.1 (-1000)).2.2.1 (by decide),
   (sky_band_classification.1 0).2.2.2⟩

/-- Claim C8 counterexample: averaging the three example reports (ambient
10/20/30, rain false/false/true, wet false/false/true) yields mean ambient
20 and raining true, but the averaged report has **no** `wet` entry at all
— the collected `wet` column is never written to the result, so the wet
flag is not the OR of the sources. -/
theorem average_drops_wet_flag :
    (average [exRep1, exRep2, exRep3]).data.lookup "wet" = none
    ∧ (colVals [exRep1, exRep2, exRep3] "wet").any truthy = true
    ∧ (average [exRep1, exRep2, exRep3]).data.lookup "T_ambient" = some (.num 20)
    ∧ (average [exRep1, exRep2, exRep3]).data.lookup "raining" = some (.bool true) := by
  refine ⟨rfl, by decide, ?_, by decide⟩
  show some (npMean (valsAsQ (colVals [exRep1, exRep2, exRep3] "T_ambient"))) = some (.num 20)
  have hv : valsAsQ (colVals [exRep1, exRep2, exRep3] "T_ambient") = [10, 20, 30] := by decide
  rw [hv]
  norm_num [npMean, List.sum]

/-- Claim C8 (amended): each of the four numeric fields of the averaged
report is the arithmetic mean over the subset of source reports containing
that field (the float NaN when that subset is empty), and `raining` is
true iff some source report's `raining` value is truthy; the `wet` flag
(like `cloud status`) is collected from the sources but never written to
the averaged report. -/
theorem average_semantics :
    (∀ reports : List Report,
      (average reports).data.lookup "wet" = none
      ∧ (average reports).data.lookup "cloud status" = none
      ∧ (average reports).data.lookup "raining"
          = some (.bool ((colVals reports "raining").any truthy)))
    ∧ (average [exRep1, exRep2, exRep3]).data.lookup "windspeed" = some (.num 5)
    ∧ (average []).data.lookup "T_ambient" = some Value.nan := by
  refine ⟨fun reports => ⟨rfl, rfl, rfl⟩, ?_, by decide⟩
  show some (npMean (valsAsQ (colVals [exRep1, exRep2, exRep3] "windspeed"))) = some (.num 5)
  have hv : valsAsQ (colVals [exRep1, exRep2, exRep3] "windspeed") = [4, 6] := by decide
  rw [hv]
  norm_num [npMean, List.sum]

/-- Claim C9: a raw frame with a stray leading null byte is processed to
exactly the same result — the same writes and the same decoded reports —
as the frame without that byte: `_poll_thread` discards the leading null
before `_analyse_message`. -/
theorem stray_null_prefix_ignored (raw : List Char) (h : raw.head? ≠ some nul) :
    processFrame (nul :: raw) = processFrame raw := by
  unfold processFrame stripNull
  simp [h]

/-- Witness for `stray_null_prefix_ignored` at the docstring example
frame. -/
theorem stray_null_prefix_ignored_witness :
    (mkFrame exampleFields).head? ≠ some nul
    ∧ processFrame (nul :: mkFrame exampleFields) = processFrame (mkFrame exampleFields) :=
  ⟨by decide, stray_null_prefix_ignored (mkFrame exampleFields) (by decide)⟩

end Boltwood

